import Mathlib

/-!
Verification development for the file-processing automation system
(process.py).  The program scans a flat input directory, validates it with
five ordered precondition checks, classifies each direct-child file as text
or binary via an encoding-fallback chain, counts lines of text files, and
folds everything into a summary record.  The definitions below embed that
logic; the theorems at the end settle the specification's claims.

Modelling notes:
  * bytes are natural numbers (real file bytes are < 256);
  * `os.access(..., R_OK)` and "opening/reading the file raises OSError"
    are distinct facts about a file, so `FileData` carries both;
  * wall-clock timestamps and the floating-point `size_kb`/`size_mb`
    fields of the summary are outside the embedding (no claim uses them);
  * `Path.absolute()` of a child of `path` is modelled as `path ++ "/" ++ name`.
-/

/-- Config.MIN_FILES_REQUIRED from the source. -/
def MIN_FILES_REQUIRED : Nat := 1

/-- A regular file as the program observes it: its name, raw byte content,
whether `os.access(f, os.R_OK)` reports it readable, whether actually opening
and reading it raises an I/O error (OSError), and its formatted mtime. -/
structure FileData where
  name : String
  content : List Nat
  readable : Bool
  readError : Bool
  mtime : String
  deriving DecidableEq

/-- A direct child of the input directory as produced by `iterdir()`:
a regular file, or a subdirectory carrying its name and the files nested
inside it (the program never descends into them). -/
inductive DirEntry where
  | file (f : FileData)
  | subdir (dname : String) (nested : List FileData)
  deriving DecidableEq

/-- The filesystem object found at the input path. -/
inductive FSNode where
  | missing
  | nondir
  | dir (readable : Bool) (entries : List DirEntry)
  deriving DecidableEq

/-- `[item for item in all_items if item.is_file()]`. -/
def directFiles : List DirEntry → List FileData
  | [] => []
  | DirEntry.file f :: rest => f :: directFiles rest
  | DirEntry.subdir _ _ :: rest => directFiles rest

/-- Names of `[item for item in all_items if item.is_dir()]`. -/
def subdirNames : List DirEntry → List String
  | [] => []
  | DirEntry.file _ :: rest => subdirNames rest
  | DirEntry.subdir n _ :: rest => n :: subdirNames rest

/-- Direct children of the node (empty for non-directories). -/
def entriesOf : FSNode → List DirEntry
  | FSNode.dir _ es => es
  | _ => []

/-- `os.access(folder, os.R_OK)` on the node. -/
def readableOf : FSNode → Bool
  | FSNode.dir r _ => r
  | _ => false

/-- Python `sep.join(parts)`. -/
def pyJoin (sep : String) : List String → String
  | [] => ""
  | [x] => x
  | x :: y :: rest => x ++ sep ++ pyJoin sep (y :: rest)

/-- The subfolder names displayed in the check-4 failure message: the first
five, plus a trailing "... and N more" entry when there are more than five
(source lines 154-156). -/
def shownFolders (folders : List String) : List String :=
  if 5 < folders.length then
    folders.take 5 ++ ["... and " ++ toString (folders.length - 5) ++ " more"]
  else
    folders.take 5

/-- `folders[0].absolute()` as interpolated into the suggestion line. -/
def firstSubdirPath (path : String) (folders : List String) : String :=
  match folders with
  | [] => path
  | n :: _ => path ++ "/" ++ n

/-- The multi-line message built when check 4 (at least one direct-child
file) fails, with its parts joined by newlines exactly as the source joins
`error_parts` (source lines 146-166). -/
def check4Message (path : String) (entries : List DirEntry) : String :=
  let files := directFiles entries
  let folders := subdirNames entries
  let nf := files.length
  let nd := folders.length
  let base := ["Input folder must contain at least " ++ toString MIN_FILES_REQUIRED ++ " file(s).",
               "Found: " ++ toString nf ++ " file(s)"]
  let parts :=
    if folders.isEmpty = false then
      base ++ ["Found " ++ toString nd ++ " subfolder(s): " ++ pyJoin (", ") (shownFolders folders),
               "\nNote: The system only processes files in the root input folder.",
               "Files inside subfolders are NOT processed.",
               "\nSuggestion: Move files from subfolders to the input folder root,",
               "or run the script directly on the subfolder: python process.py -i \"" ++ firstSubdirPath path folders ++ "\""]
    else if entries.isEmpty then base ++ ["The folder is completely empty."]
    else base
  pyJoin ("\n") parts

/-- FileProcessor.validate_inputs (source lines 115-182): the five
precondition checks in source order; the first failure raises
ValidationError, modelled as `Except.error` carrying the exact message. -/
def validate_inputs (path : String) (node : FSNode) : Except String Unit :=
  match node with
  | FSNode.missing => Except.error ("Input folder not found: " ++ path)
  | FSNode.nondir => Except.error ("Path is not a directory: " ++ path)
  | FSNode.dir r entries =>
    if r = false then Except.error ("Cannot read folder: " ++ path)
    else
      let files := directFiles entries
      if files.length < MIN_FILES_REQUIRED then
        Except.error (check4Message path entries)
      else
        let unreadable := (files.filter (fun f => f.readable = false)).map (fun f => f.name)
        if unreadable.isEmpty = false then
          Except.error ("Cannot read files: " ++ pyJoin (", ") unreadable)
        else Except.ok ()

/-- Whether the i-th validation check (0-based), taken as an independent
predicate in the claim's enumeration, fails on the node. -/
def checkFails (node : FSNode) : Nat → Bool
  | 0 => match node with
    | FSNode.missing => true
    | _ => false
  | 1 => match node with
    | FSNode.dir _ _ => false
    | _ => true
  | 2 => decide (readableOf node = false)
  | 3 => decide ((directFiles (entriesOf node)).length < MIN_FILES_REQUIRED)
  | 4 => decide ((((directFiles (entriesOf node)).filter (fun f => f.readable = false)).map (fun f => f.name)).isEmpty = false)
  | _ => false

/-- The first failing check in the claim's strict order, if any. -/
def firstFailingCheck (node : FSNode) : Option Nat :=
  [0, 1, 2, 3, 4].find? (checkFails node)

/-- The error message attached to each check's failure. -/
def checkMessage (path : String) (node : FSNode) : Nat → String
  | 0 => "Input folder not found: " ++ path
  | 1 => "Path is not a directory: " ++ path
  | 2 => "Cannot read folder: " ++ path
  | 3 => check4Message path (entriesOf node)
  | 4 => "Cannot read files: " ++ pyJoin (", ") (((directFiles (entriesOf node)).filter (fun f => f.readable = false)).map (fun f => f.name))
  | _ => ""

/-- The encodings tried by count_lines, in source order. -/
inductive Enc where
  | utf8
  | latin1
  | cp1252
  deriving DecidableEq

/-- Windows-1252 single-byte decoding: bytes 0x81, 0x8D, 0x8F, 0x90, 0x9D
are unmapped (decoding raises UnicodeDecodeError); the other bytes in
0x80-0x9F map to dedicated code points; every other byte maps to itself. -/
def cp1252Byte (b : Nat) : Option Nat :=
  if b = 129 ∨ b = 141 ∨ b = 143 ∨ b = 144 ∨ b = 157 then none
  else if b = 128 then some 8364
  else if b = 130 then some 8218
  else if b = 131 then some 402
  else if b = 132 then some 8222
  else if b = 133 then some 8230
  else if b = 134 then some 8224
  else if b = 135 then some 8225
  else if b = 136 then some 710
  else if b = 137 then some 8240
  else if b = 138 then some 352
  else if b = 139 then some 8249
  else if b = 140 then some 338
  else if b = 142 then some 381
  else if b = 145 then some 8216
  else if b = 146 then some 8217
  else if b = 147 then some 8220
  else if b = 148 then some 8221
  else if b = 149 then some 8226
  else if b = 150 then some 8211
  else if b = 151 then some 8212
  else if b = 152 then some 732
  else if b = 153 then some 8482
  else if b = 154 then some 353
  else if b = 155 then some 8250
  else if b = 156 then some 339
  else if b = 158 then some 382
  else if b = 159 then some 376
  else some b

/-- Windows-1252 decoding of a byte string to code points. -/
def cp1252Decode : List Nat → Option (List Nat)
  | [] => some []
  | b :: rest =>
    match cp1252Byte b with
    | none => none
    | some c =>
      match cp1252Decode rest with
      | none => none
      | some cs => some (c :: cs)

/-- Strict UTF-8 decoding of a byte string to code points (continuation
bytes checked, overlong forms and surrogates rejected), as Python's
`utf-8` codec does. -/
def utf8Decode : List Nat → Option (List Nat)
  | [] => some []
  | b :: rest =>
    if b < 128 then
      match utf8Decode rest with
      | some cs => some (b :: cs)
      | none => none
    else if b < 194 then none
    else if b < 224 then
      match rest with
      | b1 :: rest1 =>
        if 128 ≤ b1 ∧ b1 < 192 then
          match utf8Decode rest1 with
          | some cs => some (((b - 192) * 64 + (b1 - 128)) :: cs)
          | none => none
        else none
      | [] => none
    else if b < 240 then
      match rest with
      | b1 :: b2 :: rest2 =>
        if (if b = 224 then 160 ≤ b1 ∧ b1 < 192
            else if b = 237 then 128 ≤ b1 ∧ b1 < 160
            else 128 ≤ b1 ∧ b1 < 192) ∧ (128 ≤ b2 ∧ b2 < 192) then
          match utf8Decode rest2 with
          | some cs => some (((b - 224) * 4096 + (b1 - 128) * 64 + (b2 - 128)) :: cs)
          | none => none
        else none
      | _ => none
    else if b < 245 then
      match rest with
      | b1 :: b2 :: b3 :: rest3 =>
        if (if b = 240 then 144 ≤ b1 ∧ b1 < 192
            else if b = 244 then 128 ≤ b1 ∧ b1 < 144
            else 128 ≤ b1 ∧ b1 < 192) ∧ (128 ≤ b2 ∧ b2 < 192) ∧ (128 ≤ b3 ∧ b3 < 192) then
          match utf8Decode rest3 with
          | some cs => some (((b - 240) * 262144 + (b1 - 128) * 4096 + (b2 - 128) * 64 + (b3 - 128)) :: cs)
          | none => none
        else none
      | _ => none
    else none

/-- Decode a byte string under one encoding.  Latin-1 maps every byte to
the code point of the same value and never fails. -/
def decodeBytes : Enc → List Nat → Option (List Nat)
  | Enc.utf8, bs => utf8Decode bs
  | Enc.latin1, bs => some bs
  | Enc.cp1252, bs => cp1252Decode bs

/-- Number of lines Python's text-mode iteration yields on the decoded
code points: universal newlines, so "\r\n", "\r" and "\n" each end a line,
and a non-empty trailing segment counts as a final line. -/
def lineCount : List Nat → Nat
  | [] => 0
  | 13 :: 10 :: rest => 1 + lineCount rest
  | 13 :: rest => 1 + lineCount rest
  | 10 :: rest => 1 + lineCount rest
  | _ :: [] => 1
  | _ :: c :: rest => lineCount (c :: rest)

/-- The exceptions relevant to count_lines. -/
inductive PyExn where
  | unicodeDecodeError
  | osError
  deriving DecidableEq

/-- Outcome of a Python expression: a value, or a raised exception. -/
inductive PyResult (α : Type) where
  | ok (a : α)
  | exn (e : PyExn)
  deriving DecidableEq

/-- One iteration of the encoding loop: `open(file_path, 'r', encoding=e)`
followed by `sum(1 for _ in f)`.  An unreadable file raises OSError; bytes
the codec rejects raise UnicodeDecodeError. -/
def attemptEncoding (f : FileData) (e : Enc) : PyResult Nat :=
  if f.readError then PyResult.exn PyExn.osError
  else
    match decodeBytes e f.content with
    | some cs => PyResult.ok (lineCount cs)
    | none => PyResult.exn PyExn.unicodeDecodeError

/-- The `for encoding in [...]` loop of count_lines: the inner
`except UnicodeDecodeError: continue` moves to the next encoding, any other
exception escapes the loop, and exhausting the list returns None. -/
def tryEncodingsLoop (f : FileData) : List Enc → PyResult (Option Nat)
  | [] => PyResult.ok none
  | e :: rest =>
    match attemptEncoding f e with
    | PyResult.ok n => PyResult.ok (some n)
    | PyResult.exn PyExn.unicodeDecodeError => tryEncodingsLoop f rest
    | PyResult.exn err => PyResult.exn err

/-- The encoding fallback list `['utf-8', 'latin-1', 'cp1252']`. -/
def pyEncodings : List Enc := [Enc.utf8, Enc.latin1, Enc.cp1252]

/-- FileProcessor.count_lines (source lines 184-196) as a Python call:
the outer `except Exception` converts any escaped exception to None, so
the call itself never raises. -/
def count_lines_py (f : FileData) : PyResult (Option Nat) :=
  match tryEncodingsLoop f pyEncodings with
  | PyResult.ok r => PyResult.ok r
  | PyResult.exn _ => PyResult.ok none

/-- count_lines restricted to an arbitrary encoding list (used to show the
cp1252 entry is unreachable). -/
def countLinesWith (encs : List Enc) (f : FileData) : Option Nat :=
  match tryEncodingsLoop f encs with
  | PyResult.ok r => r
  | PyResult.exn _ => none

/-- The value count_lines returns. -/
def count_lines (f : FileData) : Option Nat :=
  countLinesWith pyEncodings f

/-- The Classifier contract as the specification words it: try the
encodings in order, adopt the first that decodes and return the decoded
file's line count; if all fail, or an I/O error occurs, produce no count. -/
def classifierSpec (f : FileData) : Option Nat :=
  if f.readError then none
  else
    match pyEncodings.find? (fun e => (decodeBytes e f.content).isSome) with
    | some e =>
      match decodeBytes e f.content with
      | some cs => some (lineCount cs)
      | none => none
    | none => none

/-- The per-file record appended to `file_stats` (floating-point size_kb
and the wall-clock format of `modified` aside). -/
structure FileRecord where
  name : String
  size_bytes : Nat
  type : String
  line_count : Option Nat
  modified : String
  deriving DecidableEq

/-- The `statistics` block of the summary (integer fields). -/
structure Statistics where
  total_files : Nat
  text_files : Nat
  binary_files : Nat
  total_size_bytes : Nat
  total_lines : Nat
  deriving DecidableEq

/-- The `processing_info` block (timestamp omitted). -/
structure ProcessingInfo where
  input_folder : String
  output_folder : String
  deriving DecidableEq

/-- The summary dictionary produced by process_files. -/
structure Summary where
  processing_info : ProcessingInfo
  statistics : Statistics
  files : List FileRecord
  deriving DecidableEq

/-- The `file_info` record built for one file (source lines 241-250). -/
def mkRecord (f : FileData) : FileRecord :=
  ⟨f.name, f.content.length,
   if (count_lines f).isSome then "text" else "binary",
   count_lines f, f.mtime⟩

/-- The running accumulators of the processing loop. -/
structure LoopAcc where
  file_stats : List FileRecord
  total_size : Nat
  total_lines : Nat
  text_files : Nat
  binary_files : Nat
  deriving DecidableEq

/-- The body of `for idx, file_path in enumerate(files, 1)` (source lines
211-252): sizes accumulate, a non-None line count marks a text file,
None marks a binary file, and a record is appended per file. -/
def processLoop : List FileData → LoopAcc
  | [] => ⟨[], 0, 0, 0, 0⟩
  | f :: fs =>
    let acc := processLoop fs
    ⟨mkRecord f :: acc.file_stats,
     f.content.length + acc.total_size,
     (count_lines f).getD 0 + acc.total_lines,
     (if (count_lines f).isSome then 1 else 0) + acc.text_files,
     (if (count_lines f).isSome then 0 else 1) + acc.binary_files⟩

/-- Code-point-wise lexicographic comparison of strings (as char lists),
the order in which Python's `sorted` ranks same-directory Path objects. -/
def bytesLe : List Char → List Char → Bool
  | [], _ => true
  | _ :: _, [] => false
  | a :: as, b :: bs =>
    if a.toNat < b.toNat then true
    else if b.toNat < a.toNat then false
    else bytesLe as bs

/-- Ordering of files by name. -/
def nameLe (f g : FileData) : Prop := bytesLe f.name.data g.name.data = true

instance : DecidableRel nameLe :=
  fun f g => inferInstanceAs (Decidable (bytesLe f.name.data g.name.data = true))

/-- `sorted([item for item in iterdir() if item.is_file()])` — a stable
sort by name (source line 203). -/
def sortFiles (l : List FileData) : List FileData :=
  List.insertionSort nameLe l

/-- FileProcessor.process_files (source lines 198-277): sort the
direct-child files by name, run the loop, and assemble the summary. -/
def process_files (entries : List DirEntry) (inP outP : String) : Summary :=
  let files := sortFiles (directFiles entries)
  let acc := processLoop files
  ⟨⟨inP, outP⟩,
   ⟨files.length, acc.text_files, acc.binary_files, acc.total_size, acc.total_lines⟩,
   acc.file_stats⟩

/-- Python `enumerate(files, 1)`. -/
def enumFrom : Nat → List FileData → List (Nat × FileData)
  | _, [] => []
  | i, f :: fs => (i, f) :: enumFrom (i + 1) fs

/-- The progress prefix logged per file: `  [idx/total] name`. -/
def progressLine (total idx : Nat) (fname : String) : String :=
  "  [" ++ toString idx ++ "/" ++ toString total ++ "] " ++ fname

/-- The sequence of progress lines the processing loop logs. -/
def processProgress (entries : List DirEntry) : List String :=
  let files := sortFiles (directFiles entries)
  (enumFrom 1 files).map (fun p => progressLine files.length p.1 p.2.name)

/-- Is `needle` a prefix of `hay` (char lists)? -/
def hasPrefixL : List Char → List Char → Bool
  | [], _ => true
  | _ :: _, [] => false
  | a :: as, b :: bs => a == b && hasPrefixL as bs

/-- Does `needle` occur contiguously inside `hay` (char lists)? -/
def hasSubL (needle : List Char) : List Char → Bool
  | [] => needle.isEmpty
  | c :: cs => hasPrefixL needle (c :: cs) || hasSubL needle cs

/-- `needle` occurs as a contiguous substring of `hay`. -/
def SubStr (needle hay : String) : Prop := hasSubL needle.data hay.data = true

instance (n h : String) : Decidable (SubStr n h) :=
  inferInstanceAs (Decidable (hasSubL n.data h.data = true))

/-- Two direct-children lists are identical except possibly in the files
nested inside subdirectories. -/
def sameDirect : List DirEntry → List DirEntry → Bool
  | [], [] => true
  | DirEntry.file f :: xs, DirEntry.file g :: ys => decide (f = g) && sameDirect xs ys
  | DirEntry.subdir n _ :: xs, DirEntry.subdir m _ :: ys => decide (n = m) && sameDirect xs ys
  | _, _ => false

/-- Everything a run interacts with: the resolved paths, the input-path
filesystem object, whether setup_logging raises (e.g. the output folder
cannot be created), and whether writing summary.json raises. -/
structure World where
  inputPath : String
  outputPath : String
  input : FSNode
  setupFails : Bool
  writeFails : Bool

/-- Observable outcome of FileProcessor.run: the returned exit code, the
summary persisted by write_summary (if any), and the FileRecords the run
created. -/
structure RunResult where
  exitCode : Nat
  written : Option Summary
  recordsCreated : List FileRecord
  deriving DecidableEq

/-- FileProcessor.run (source lines 309-362): setup, validate, process,
write; ValidationError maps to 1, any other exception to 2, success to 0.
A non-directory that passed validation cannot occur, but if it did,
`iterdir()` would raise and the generic handler would return 2. -/
def run (w : World) : RunResult :=
  if w.setupFails then ⟨2, none, []⟩
  else
    match validate_inputs w.inputPath w.input with
    | Except.error _ => ⟨1, none, []⟩
    | Except.ok _ =>
      match w.input with
      | FSNode.dir _ entries =>
        let s := process_files entries w.inputPath w.outputPath
        if w.writeFails then ⟨2, none, s.files⟩
        else ⟨0, some s, s.files⟩
      | _ => ⟨2, none, []⟩

/-- Did validation succeed? -/
def isOkB : Except String Unit → Bool
  | Except.ok _ => true
  | Except.error _ => false

/-- UTF-8 bytes of "line1\nline2\n". -/
def aFile : FileData :=
  ⟨"a.txt", [108, 105, 110, 101, 49, 10, 108, 105, 110, 101, 50, 10], true, false, "2024-01-01 10:00:00"⟩

/-- A readable file whose bytes are not valid UTF-8 (0xFF cannot start a
UTF-8 sequence). -/
def bFile : FileData :=
  ⟨"b.bin", [255, 254, 0], true, false, "2024-01-01 10:00:00"⟩

/-- The same file when opening it for reading raises an I/O error. -/
def bFileErr : FileData :=
  ⟨"b.bin", [255, 254, 0], true, true, "2024-01-01 10:00:00"⟩

/-- The claimed C1 scenario directory: a.txt plus a non-UTF-8 b.bin. -/
def c1entries : List DirEntry := [DirEntry.file aFile, DirEntry.file bFile]

/-- The amended C1 scenario: b.bin raises an I/O error when read. -/
def c1entriesErr : List DirEntry := [DirEntry.file aFile, DirEntry.file bFileErr]

/-- A directory with no files and six subdirectories. -/
def c9entries : List DirEntry :=
  [DirEntry.subdir ("d1") [], DirEntry.subdir ("d2") [], DirEntry.subdir ("d3") [],
   DirEntry.subdir ("d4") [], DirEntry.subdir ("d5") [], DirEntry.subdir ("d6") []]

/-- Concrete directory listings that are permutations of each other. -/
def c5e1 : List DirEntry := [DirEntry.file bFile, DirEntry.file aFile]

/-- The same listing in the opposite enumeration order. -/
def c5e2 : List DirEntry := [DirEntry.file aFile, DirEntry.file bFile]

/-- A file nested inside a subdirectory. -/
def nestedFile : FileData := ⟨"n.txt", [97], true, false, "2024-01-01 10:00:00"⟩

/-- One direct file and one empty subdirectory. -/
def c7e1 : List DirEntry := [DirEntry.file aFile, DirEntry.subdir ("sub") []]

/-- The same direct children, with a file added inside the subdirectory. -/
def c7e2 : List DirEntry := [DirEntry.file aFile, DirEntry.subdir ("sub") [nestedFile]]

/-! ### Helper lemmas -/

theorem hasPrefixL_iff (n : List Char) : ∀ h : List Char, hasPrefixL n h = true ↔ ∃ t, h = n ++ t := by
  induction n with
  | nil => intro h; simp [hasPrefixL]
  | cons a as ih =>
    intro h
    cases h with
    | nil => simp [hasPrefixL]
    | cons b bs =>
      simp only [hasPrefixL, Bool.and_eq_true, beq_iff_eq, ih bs]
      constructor
      · rintro ⟨rfl, t, rfl⟩; exact ⟨t, rfl⟩
      · rintro ⟨t, he⟩
        cases he
        exact ⟨rfl, t, rfl⟩

theorem hasSubL_iff (n : List Char) : ∀ h : List Char, hasSubL n h = true ↔ ∃ a b, h = a ++ n ++ b := by
  intro h
  induction h with
  | nil =>
    simp only [hasSubL, List.isEmpty_iff]
    constructor
    · rintro rfl; exact ⟨[], [], rfl⟩
    · rintro ⟨a, b, he⟩
      rcases List.append_eq_nil.mp (List.append_eq_nil.mp he.symm).1 with ⟨-, h2⟩
      exact h2
  | cons c cs ih =>
    simp only [hasSubL, Bool.or_eq_true, hasPrefixL_iff, ih]
    constructor
    · rintro (⟨t, he⟩ | ⟨a, b, he⟩)
      · exact ⟨[], t, by simp [he]⟩
      · exact ⟨c :: a, b, by simp [he]⟩
    · rintro ⟨a, b, he⟩
      cases a with
      | nil => exact Or.inl ⟨b, by simpa using he⟩
      | cons x xs =>
        right
        refine ⟨xs, b, ?_⟩
        have := he
        simp only [List.cons_append] at this
        exact (List.cons.injEq _ _ _ _ ▸ this).2

theorem substr_iff (n h : String) : SubStr n h ↔ ∃ a b, h.data = a ++ n.data ++ b := by
  exact hasSubL_iff n.data h.data

theorem substr_prefix (n t : String) : SubStr n (n ++ t) := by
  rw [substr_iff]
  exact ⟨[], t.data, by simp [String.data_append]⟩

theorem substr_append_left (g n h : String) (hs : SubStr n h) : SubStr n (g ++ h) := by
  rw [substr_iff] at hs ⊢
  rcases hs with ⟨a, b, he⟩
  exact ⟨g.data ++ a, b, by simp [String.data_append, he]⟩

theorem substr_append_right (g n h : String) (hs : SubStr n h) : SubStr n (h ++ g) := by
  rw [substr_iff] at hs ⊢
  rcases hs with ⟨a, b, he⟩
  exact ⟨a, b ++ g.data, by simp [String.data_append, he]⟩

theorem substr_trans (a b c : String) (h1 : SubStr a b) (h2 : SubStr b c) : SubStr a c := by
  rw [substr_iff] at h1 h2 ⊢
  rcases h1 with ⟨x, y, hxy⟩
  rcases h2 with ⟨u, v, huv⟩
  exact ⟨u ++ x, y ++ v, by simp [huv, hxy]⟩

theorem substr_mem_pyJoin (sep y : String) (l : List String) (hm : y ∈ l) : SubStr y (pyJoin sep l) := by
  induction l with
  | nil => cases hm
  | cons x xs ih =>
    cases xs with
    | nil =>
      rcases List.mem_singleton.mp hm with rfl
      have := substr_prefix y ("")
      simpa [pyJoin] using substr_prefix y ("")
    | cons z zs =>
      rcases List.mem_cons.mp hm with rfl | hm2
      · have : pyJoin sep (y :: z :: zs) = y ++ (sep ++ pyJoin sep (z :: zs)) := by
          simp [pyJoin, String.append_assoc]
        rw [this]
        exact substr_prefix y _
      · have hx : pyJoin sep (x :: z :: zs) = (x ++ sep) ++ pyJoin sep (z :: zs) := by
          simp [pyJoin]
        rw [hx]
        exact substr_append_left _ _ _ (ih hm2)

theorem take_append_le (k : Nat) (p v : String) (hl : k ≤ p.data.length) :
    (p ++ v).data.take k = p.data.take k := by
  rw [String.data_append]
  exact List.take_append_of_le_length hl

theorem le_len_append (k : Nat) (p v : String) (hl : k ≤ p.data.length) :
    k ≤ (p ++ v).data.length := by
  rw [String.data_append, List.length_append]
  omega

theorem ne_of_take_ne (k : Nat) (a b : String) (h : a.data.take k ≠ b.data.take k) : a ≠ b := by
  intro e
  exact h (by rw [e])

theorem pyJoin_shape (sep x y : String) (rest : List String) :
    ∃ t, pyJoin sep (x :: y :: rest) = x ++ t :=
  ⟨sep ++ pyJoin sep (y :: rest), by simp [pyJoin, String.append_assoc]⟩

theorem check4Message_shape (path : String) (entries : List DirEntry) :
    ∃ t : String, check4Message path entries =
      ("Input folder must contain at least " ++ toString MIN_FILES_REQUIRED ++ " file(s).") ++ t := by
  unfold check4Message
  simp only [List.cons_append, List.nil_append]
  split_ifs with h1 h2
  · exact pyJoin_shape _ _ _ _
  · exact pyJoin_shape _ _ _ _
  · exact pyJoin_shape _ _ _ _

theorem check4_take14 (path : String) (entries : List DirEntry) :
    (check4Message path entries).data.take 14 = ("Input folder m").data := by
  rcases check4Message_shape path entries with ⟨t, he⟩
  rw [he, take_append_le 14 _ _ (by decide)]
  decide

theorem take_ne_imp_ne (a b : String) (x y : List Char)
    (ha : a.data.take 14 = x) (hb : b.data.take 14 = y) (hxy : x ≠ y) : a ≠ b := by
  intro e
  exact hxy (by rw [← ha, ← hb, e])

theorem checkMessages_distinct (path : String) (node : FSNode) :
    List.Pairwise (fun a b : String => a ≠ b)
      [checkMessage path node 0, checkMessage path node 1, checkMessage path node 2,
       checkMessage path node 3, checkMessage path node 4] := by
  have t0 : (checkMessage path node 0).data.take 14 = ("Input folder n").data := by
    simp only [checkMessage]
    rw [take_append_le 14 _ _ (by decide)]
    decide
  have t1 : (checkMessage path node 1).data.take 14 = ("Path is not a ").data := by
    simp only [checkMessage]
    rw [take_append_le 14 _ _ (by decide)]
    decide
  have t2 : (checkMessage path node 2).data.take 14 = ("Cannot read fo").data := by
    simp only [checkMessage]
    rw [take_append_le 14 _ _ (by decide)]
    decide
  have t3 : (checkMessage path node 3).data.take 14 = ("Input folder m").data := by
    simp only [checkMessage]
    exact check4_take14 path (entriesOf node)
  have t4 : (checkMessage path node 4).data.take 14 = ("Cannot read fi").data := by
    simp only [checkMessage]
    rw [take_append_le 14 _ _ (by decide)]
    decide
  simp only [List.pairwise_cons, List.mem_cons, List.mem_singleton, List.not_mem_nil,
    forall_eq_or_imp, forall_eq, false_implies, implies_true, and_true, List.Pairwise.nil]
  refine ⟨⟨?_, ?_, ?_, ?_⟩, ⟨?_, ?_, ?_⟩, ⟨?_, ?_⟩, ?_⟩
  · exact take_ne_imp_ne _ _ _ _ t0 t1 (by decide)
  · exact take_ne_imp_ne _ _ _ _ t0 t2 (by decide)
  · exact take_ne_imp_ne _ _ _ _ t0 t3 (by decide)
  · exact take_ne_imp_ne _ _ _ _ t0 t4 (by decide)
  · exact take_ne_imp_ne _ _ _ _ t1 t2 (by decide)
  · exact take_ne_imp_ne _ _ _ _ t1 t3 (by decide)
  · exact take_ne_imp_ne _ _ _ _ t1 t4 (by decide)
  · exact take_ne_imp_ne _ _ _ _ t2 t3 (by decide)
  · exact take_ne_imp_ne _ _ _ _ t2 t4 (by decide)
  · exact take_ne_imp_ne _ _ _ _ t3 t4 (by decide)

theorem validate_refines (path : String) (node : FSNode) :
    validate_inputs path node =
      (match firstFailingCheck node with
       | none => Except.ok ()
       | some i => Except.error (checkMessage path node i)) := by
  cases node with
  | missing => rfl
  | nondir => rfl
  | dir r entries =>
    cases r with
    | false => rfl
    | true =>
      by_cases h4 : (directFiles entries).length < MIN_FILES_REQUIRED
      · simp [validate_inputs, firstFailingCheck, checkFails, entriesOf, readableOf,
          List.find?, h4, checkMessage]
      · by_cases h5 : ∃ x ∈ directFiles entries, x.readable = false
        · simp [validate_inputs, firstFailingCheck, checkFails, entriesOf, readableOf,
            List.find?, h4, h5, checkMessage]
        · simp [validate_inputs, firstFailingCheck, checkFails, entriesOf, readableOf,
            List.find?, h4, h5, checkMessage]

theorem count_lines_py_eq (f : FileData) : count_lines_py f = PyResult.ok (classifierSpec f) := by
  cases hr : f.readError with
  | true =>
    simp [count_lines_py, classifierSpec, pyEncodings, tryEncodingsLoop, attemptEncoding, hr]
  | false =>
    cases hu : utf8Decode f.content with
    | none =>
      simp [count_lines_py, classifierSpec, pyEncodings, tryEncodingsLoop, attemptEncoding,
        decodeBytes, hr, hu, List.find?]
    | some cs =>
      simp [count_lines_py, classifierSpec, pyEncodings, tryEncodingsLoop, attemptEncoding,
        decodeBytes, hr, hu, List.find?]

theorem count_lines_eq_spec (f : FileData) : count_lines f = classifierSpec f := by
  cases hr : f.readError with
  | true =>
    simp [count_lines, countLinesWith, classifierSpec, pyEncodings, tryEncodingsLoop,
      attemptEncoding, hr]
  | false =>
    cases hu : utf8Decode f.content with
    | none =>
      simp [count_lines, countLinesWith, classifierSpec, pyEncodings, tryEncodingsLoop,
        attemptEncoding, decodeBytes, hr, hu, List.find?]
    | some cs =>
      simp [count_lines, countLinesWith, classifierSpec, pyEncodings, tryEncodingsLoop,
        attemptEncoding, decodeBytes, hr, hu, List.find?]

theorem count_lines_two_encodings (f : FileData) :
    count_lines f = countLinesWith [Enc.utf8, Enc.latin1] f := by
  cases hr : f.readError with
  | true =>
    simp [count_lines, countLinesWith, pyEncodings, tryEncodingsLoop, attemptEncoding, hr]
  | false =>
    cases hu : utf8Decode f.content with
    | none =>
      simp [count_lines, countLinesWith, pyEncodings, tryEncodingsLoop, attemptEncoding,
        decodeBytes, hr, hu]
    | some cs =>
      simp [count_lines, countLinesWith, pyEncodings, tryEncodingsLoop, attemptEncoding,
        decodeBytes, hr, hu]

theorem count_lines_none_iff (f : FileData) : count_lines f = none ↔ f.readError = true := by
  cases hr : f.readError with
  | true =>
    simp [count_lines, countLinesWith, pyEncodings, tryEncodingsLoop, attemptEncoding, hr]
  | false =>
    cases hu : utf8Decode f.content with
    | none =>
      simp [count_lines, countLinesWith, pyEncodings, tryEncodingsLoop, attemptEncoding,
        decodeBytes, hr, hu]
    | some cs =>
      simp [count_lines, countLinesWith, pyEncodings, tryEncodingsLoop, attemptEncoding,
        decodeBytes, hr, hu]

theorem processLoop_records (l : List FileData) : (processLoop l).file_stats = l.map mkRecord := by
  induction l with
  | nil => rfl
  | cons f fs ih => simp [processLoop, ih]

theorem processLoop_counts (l : List FileData) :
    (processLoop l).text_files + (processLoop l).binary_files = l.length := by
  induction l with
  | nil => rfl
  | cons f fs ih =>
    cases h : (count_lines f).isSome <;> simp [processLoop, h] <;> omega

theorem processLoop_size (l : List FileData) :
    (processLoop l).total_size = ((processLoop l).file_stats.map (fun r => r.size_bytes)).sum := by
  induction l with
  | nil => rfl
  | cons f fs ih => simp [processLoop, mkRecord, ih]

theorem processLoop_lines (l : List FileData) :
    (processLoop l).total_lines =
      (((processLoop l).file_stats.filter (fun r => r.type == "text")).map
        (fun r => r.line_count.getD 0)).sum := by
  induction l with
  | nil => rfl
  | cons f fs ih =>
    cases h : count_lines f with
    | none => simp [processLoop, mkRecord, h, ih]
    | some n => simp [processLoop, mkRecord, h, ih]

theorem validate_ok_dir (p : String) (n : FSNode) (u : Unit)
    (h : validate_inputs p n = Except.ok u) : ∃ r e, n = FSNode.dir r e := by
  cases n with
  | missing => simp [validate_inputs] at h
  | nondir => simp [validate_inputs] at h
  | dir r e => exact ⟨r, e, rfl⟩

theorem sameDirect_spec : ∀ (e1 e2 : List DirEntry), sameDirect e1 e2 = true →
    directFiles e1 = directFiles e2 ∧ subdirNames e1 = subdirNames e2 ∧ e1.isEmpty = e2.isEmpty := by
  intro e1
  induction e1 with
  | nil =>
    intro e2 h
    cases e2 with
    | nil => exact ⟨rfl, rfl, rfl⟩
    | cons y ys => simp [sameDirect] at h
  | cons x xs ih =>
    intro e2 h
    cases e2 with
    | nil => cases x <;> simp [sameDirect] at h
    | cons y ys =>
      cases x with
      | file f =>
        cases y with
        | file g =>
          simp only [sameDirect, Bool.and_eq_true, decide_eq_true_eq] at h
          obtain ⟨rfl, hrest⟩ := h
          obtain ⟨h1, h2, h3⟩ := ih ys hrest
          simp [directFiles, subdirNames, h1, h2, List.isEmpty]
        | subdir m ns => simp [sameDirect] at h
      | subdir n fs =>
        cases y with
        | file g => simp [sameDirect] at h
        | subdir m ns =>
          simp only [sameDirect, Bool.and_eq_true, decide_eq_true_eq] at h
          obtain ⟨rfl, hrest⟩ := h
          obtain ⟨h1, h2, h3⟩ := ih ys hrest
          simp [directFiles, subdirNames, h1, h2, List.isEmpty]

theorem check4Message_congr (path : String) (e1 e2 : List DirEntry)
    (hf : directFiles e1 = directFiles e2) (hd : subdirNames e1 = subdirNames e2)
    (he : e1.isEmpty = e2.isEmpty) : check4Message path e1 = check4Message path e2 := by
  unfold check4Message
  rw [hf, hd, he]

theorem validate_congr (path : String) (r : Bool) (e1 e2 : List DirEntry)
    (hf : directFiles e1 = directFiles e2) (hd : subdirNames e1 = subdirNames e2)
    (he : e1.isEmpty = e2.isEmpty) :
    validate_inputs path (FSNode.dir r e1) = validate_inputs path (FSNode.dir r e2) := by
  simp only [validate_inputs, hf, check4Message_congr path e1 e2 hf hd he]

theorem bytesLe_total : ∀ x y : List Char, bytesLe x y = true ∨ bytesLe y x = true := by
  intro x
  induction x with
  | nil => intro y; exact Or.inl rfl
  | cons a as ih =>
    intro y
    cases y with
    | nil => exact Or.inr rfl
    | cons b bs =>
      rcases Nat.lt_trichotomy a.toNat b.toNat with h | h | h
      · exact Or.inl (by simp [bytesLe, h])
      · rcases ih bs with g | g
        · exact Or.inl (by simp [bytesLe, h, lt_irrefl, g])
        · exact Or.inr (by simp [bytesLe, h, lt_irrefl, g])
      · exact Or.inr (by simp [bytesLe, h])

theorem bytesLe_trans : ∀ x y z : List Char,
    bytesLe x y = true → bytesLe y z = true → bytesLe x z = true := by
  intro x
  induction x with
  | nil => intro y z h1 h2; rfl
  | cons a as ih =>
    intro y z h1 h2
    cases y with
    | nil => simp [bytesLe] at h1
    | cons b bs =>
      cases z with
      | nil => simp [bytesLe] at h2
      | cons c cs =>
        rcases Nat.lt_trichotomy a.toNat b.toNat with h | h | h
        · rcases Nat.lt_trichotomy b.toNat c.toNat with g | g | g
          · simp [bytesLe, Nat.lt_trans h g]
          · have hac : a.toNat < c.toNat := by omega
            simp [bytesLe, hac]
          · exfalso; simp [bytesLe, g, Nat.lt_asymm g] at h2
        · rcases Nat.lt_trichotomy b.toNat c.toNat with g | g | g
          · have hac : a.toNat < c.toNat := by omega
            simp [bytesLe, hac]
          · simp [bytesLe, h, lt_irrefl] at h1
            simp [bytesLe, g, lt_irrefl] at h2
            have hac : a.toNat = c.toNat := by omega
            simp [bytesLe, hac, lt_irrefl]
            exact ih bs cs h1 h2
          · exfalso; simp [bytesLe, g, Nat.lt_asymm g] at h2
        · exfalso; simp [bytesLe, h, Nat.lt_asymm h] at h1

theorem bytesLe_antisymm : ∀ x y : List Char,
    bytesLe x y = true → bytesLe y x = true → x = y := by
  intro x
  induction x with
  | nil =>
    intro y h1 h2
    cases y with
    | nil => rfl
    | cons b bs => simp [bytesLe] at h2
  | cons a as ih =>
    intro y h1 h2
    cases y with
    | nil => simp [bytesLe] at h1
    | cons b bs =>
      rcases Nat.lt_trichotomy a.toNat b.toNat with h | h | h
      · exfalso; simp [bytesLe, h, Nat.lt_asymm h] at h2
      · have hab : a = b := Char.ext (UInt32.ext h)
        simp [bytesLe, h, lt_irrefl] at h1 h2
        rw [hab, ih bs h1 h2]
      · exfalso; simp [bytesLe, h, Nat.lt_asymm h] at h1

theorem sortFiles_perm (l : List FileData) : List.Perm (sortFiles l) l :=
  List.perm_insertionSort nameLe l

theorem sortFiles_sorted (l : List FileData) : List.Sorted nameLe (sortFiles l) := by
  haveI : IsTotal FileData nameLe := ⟨fun a b => bytesLe_total a.name.data b.name.data⟩
  haveI : IsTrans FileData nameLe :=
    ⟨fun a b c h1 h2 => bytesLe_trans a.name.data b.name.data c.name.data h1 h2⟩
  exact List.sorted_insertionSort nameLe l

theorem sortFiles_eq (l1 l2 : List FileData) (hp : List.Perm l1 l2)
    (hn : (l1.map (fun f => f.name)).Nodup) : sortFiles l1 = sortFiles l2 := by
  haveI : IsAntisymm FileData (fun a b => nameLe a b ∧ a.name ≠ b.name) :=
    ⟨fun a b h1 h2 =>
      absurd (String.ext (bytesLe_antisymm a.name.data b.name.data h1.1 h2.1)) h1.2⟩
  have perm1 : List.Perm (sortFiles l1) l1 := sortFiles_perm l1
  have perm2 : List.Perm (sortFiles l2) l2 := sortFiles_perm l2
  have hn1 : ((sortFiles l1).map (fun f => f.name)).Nodup :=
    ((perm1.map (fun f => f.name)).nodup_iff).mpr hn
  have hn2 : ((sortFiles l2).map (fun f => f.name)).Nodup :=
    ((perm2.map (fun f => f.name)).nodup_iff).mpr (((hp.map (fun f => f.name)).nodup_iff).mp hn)
  have s1 : List.Sorted (fun a b => nameLe a b ∧ a.name ≠ b.name) (sortFiles l1) :=
    (sortFiles_sorted l1).and (List.pairwise_map.mp hn1)
  have s2 : List.Sorted (fun a b => nameLe a b ∧ a.name ≠ b.name) (sortFiles l2) :=
    (sortFiles_sorted l2).and (List.pairwise_map.mp hn2)
  exact List.eq_of_perm_of_sorted (perm1.trans (hp.trans perm2.symm)) s1 s2

theorem directFiles_eq_filterMap (l : List DirEntry) :
    directFiles l = l.filterMap (fun e =>
      match e with
      | DirEntry.file f => some f
      | DirEntry.subdir _ _ => none) := by
  induction l with
  | nil => rfl
  | cons x xs ih => cases x <;> simp [directFiles, ih]

theorem directFiles_perm (e1 e2 : List DirEntry) (hp : List.Perm e1 e2) :
    List.Perm (directFiles e1) (directFiles e2) := by
  rw [directFiles_eq_filterMap, directFiles_eq_filterMap]
  exact hp.filterMap _

theorem enumFrom_map_zipWith (g : Nat → FileData → String) :
    ∀ (l : List FileData) (i : Nat),
    (enumFrom i l).map (fun p => g p.1 p.2) = List.zipWith g (List.range' i l.length) l := by
  intro l
  induction l with
  | nil => intro i; rfl
  | cons f fs ih => intro i; simp [enumFrom, List.range'_succ, ih]

theorem check4_contains_found0 (path : String) (entries : List DirEntry)
    (hf : directFiles entries = []) :
    SubStr ("Found: 0 file(s)") (check4Message path entries) := by
  simp only [check4Message, hf, List.length_nil]
  simp only [List.cons_append, List.nil_append]
  split_ifs with h1 h2
  · exact substr_mem_pyJoin _ _ _ (List.mem_cons_of_mem _ (List.mem_cons_self _ _))
  · exact substr_mem_pyJoin _ _ _ (List.mem_cons_of_mem _ (List.mem_cons_self _ _))
  · exact substr_mem_pyJoin _ _ _ (List.mem_cons_of_mem _ (List.mem_cons_self _ _))

theorem check4Message_folders (path : String) (entries : List DirEntry)
    (hcond : (subdirNames entries).isEmpty = false) :
    check4Message path entries = pyJoin ("\n")
      ["Input folder must contain at least " ++ toString MIN_FILES_REQUIRED ++ " file(s).",
       "Found: " ++ toString (directFiles entries).length ++ " file(s)",
       "Found " ++ toString (subdirNames entries).length ++ " subfolder(s): " ++
         pyJoin (", ") (shownFolders (subdirNames entries)),
       "\nNote: The system only processes files in the root input folder.",
       "Files inside subfolders are NOT processed.",
       "\nSuggestion: Move files from subfolders to the input folder root,",
       "or run the script directly on the subfolder: python process.py -i \"" ++
         firstSubdirPath path (subdirNames entries) ++ "\""] := by
  simp only [check4Message, hcond]
  simp only [List.cons_append, List.nil_append, if_true]

/-! ### Claims -/

/-- Claim C1 (counterexample): in the claimed scenario — a.txt with UTF-8
"line1\nline2\n" next to a readable b.bin whose bytes are not valid UTF-8 —
the code does NOT classify b.bin as binary: Latin-1 decodes every byte
string, so b.bin is recorded as text with a line count, binary_files is 0
and text_files is 2, contradicting the claimed statistics. -/
theorem C1_cex :
    utf8Decode bFile.content = none ∧
    bFile.readError = false ∧
    (process_files c1entries ("input") ("output")).statistics.binary_files = 0 ∧
    (process_files c1entries ("input") ("output")).statistics.text_files = 2 ∧
    (process_files c1entries ("input") ("output")).files.map (fun r => (r.name, r.type, r.line_count)) =
      [("a.txt", "text", some 2), ("b.bin", "text", some 1)] ∧
    ¬((process_files c1entries ("input") ("output")).statistics.text_files = 1 ∧
      (process_files c1entries ("input") ("output")).statistics.binary_files = 1 ∧
      (process_files c1entries ("input") ("output")).statistics.total_lines = 2 ∧
      (process_files c1entries ("input") ("output")).files.map (fun r => (r.name, r.type, r.line_count)) =
        [("a.txt", "text", some 2), ("b.bin", "binary", none)]) := by
  decide

/-- Claim C1 (amended): same scenario, except that b.bin is a file whose
read raises an I/O error (the only way the code can classify a file as
binary, since Latin-1 accepts every byte sequence).  Then the Summary has
total_files 2, text_files 1, binary_files 1, total_lines 2, a.txt is a
text record with line_count 2, and b.bin a binary record with no count. -/
theorem C1_thm :
    (process_files c1entriesErr ("input") ("output")).statistics.total_files = 2 ∧
    (process_files c1entriesErr ("input") ("output")).statistics.text_files = 1 ∧
    (process_files c1entriesErr ("input") ("output")).statistics.binary_files = 1 ∧
    (process_files c1entriesErr ("input") ("output")).statistics.total_lines = 2 ∧
    (process_files c1entriesErr ("input") ("output")).files.map (fun r => (r.name, r.type, r.line_count)) =
      [("a.txt", "text", some 2), ("b.bin", "binary", none)] := by
  decide

/-- Claim C2: for every file, the classifier call never lets an exception
escape (the outer handler yields a value for every input), and its value
equals the specification's description: try UTF-8, Latin-1, cp1252 in that
order, adopt the first encoding that decodes and return the line count;
on decoding failure of every encoding or any other I/O error, no count. -/
theorem C2_thm : ∀ f : FileData,
    count_lines_py f = PyResult.ok (classifierSpec f) ∧
    count_lines f = classifierSpec f :=
  fun f => ⟨count_lines_py_eq f, count_lines_eq_spec f⟩

/-- Claim C3: validate_inputs evaluates exactly the five checks in the
claimed strict order stopping at the first failure — it equals the
first-failing-check reference evaluation — and the five per-check failure
messages are pairwise distinct for every path and node. -/
theorem C3_thm : ∀ (path : String) (node : FSNode),
    (validate_inputs path node =
      match firstFailingCheck node with
      | none => Except.ok ()
      | some i => Except.error (checkMessage path node i)) ∧
    List.Pairwise (fun a b : String => a ≠ b)
      [checkMessage path node 0, checkMessage path node 1, checkMessage path node 2,
       checkMessage path node 3, checkMessage path node 4] :=
  fun path node => ⟨validate_refines path node, checkMessages_distinct path node⟩

/-- Claim C4: in every produced Summary, total_files = text_files +
binary_files, total_size_bytes is the sum of the records' size_bytes, and
total_lines is the sum of line_count over the records typed "text". -/
theorem C4_thm : ∀ (entries : List DirEntry) (inP outP : String),
    (process_files entries inP outP).statistics.total_files =
      (process_files entries inP outP).statistics.text_files +
      (process_files entries inP outP).statistics.binary_files ∧
    (process_files entries inP outP).statistics.total_size_bytes =
      ((process_files entries inP outP).files.map (fun r => r.size_bytes)).sum ∧
    (process_files entries inP outP).statistics.total_lines =
      (((process_files entries inP outP).files.filter (fun r => r.type == "text")).map
        (fun r => r.line_count.getD 0)).sum := by
  intro entries inP outP
  refine ⟨?_, ?_, ?_⟩
  · have h1 : (process_files entries inP outP).statistics.total_files =
        (sortFiles (directFiles entries)).length := rfl
    have h2 : (process_files entries inP outP).statistics.text_files =
        (processLoop (sortFiles (directFiles entries))).text_files := rfl
    have h3 : (process_files entries inP outP).statistics.binary_files =
        (processLoop (sortFiles (directFiles entries))).binary_files := rfl
    rw [h1, h2, h3, processLoop_counts]
  · have h1 : (process_files entries inP outP).statistics.total_size_bytes =
        (processLoop (sortFiles (directFiles entries))).total_size := rfl
    have h2 : (process_files entries inP outP).files =
        (processLoop (sortFiles (directFiles entries))).file_stats := rfl
    rw [h1, h2, processLoop_size]
  · have h1 : (process_files entries inP outP).statistics.total_lines =
        (processLoop (sortFiles (directFiles entries))).total_lines := rfl
    have h2 : (process_files entries inP outP).files =
        (processLoop (sortFiles (directFiles entries))).file_stats := rfl
    rw [h1, h2, processLoop_lines]

/-- Claim C10: because Latin-1 decodes every byte sequence, the classifier
returns a line count (and the file is typed text) exactly when reading the
file raises no I/O error — count_lines is none iff readError — and the
cp1252 entry of the fallback list is unreachable: dropping it never
changes the result. -/
theorem C10_thm : ∀ f : FileData,
    (count_lines f = none ↔ f.readError = true) ∧
    count_lines f = countLinesWith [Enc.utf8, Enc.latin1] f :=
  fun f => ⟨count_lines_none_iff f, count_lines_two_encodings f⟩

/-- Claim C5: the Summary's files sequence is the direct-child files sorted
ascending by name — the result is invariant under the filesystem's
enumeration order (any permutation of the entries with distinct names
produces the same Summary), the record names come out sorted, and the
progress log pairs the i-th sorted file with the 1-based index i. -/
theorem C5_thm : ∀ (e1 e2 : List DirEntry) (inP outP : String),
    List.Perm e1 e2 →
    ((directFiles e1).map (fun f => f.name)).Nodup →
    process_files e1 inP outP = process_files e2 inP outP ∧
    List.Pairwise (fun a b : String => bytesLe a.data b.data = true)
      ((process_files e1 inP outP).files.map (fun r => r.name)) ∧
    processProgress e1 = List.zipWith
      (fun i f => progressLine (sortFiles (directFiles e1)).length i f.name)
      (List.range' 1 (sortFiles (directFiles e1)).length)
      (sortFiles (directFiles e1)) := by
  intro e1 e2 inP outP hp hn
  have hperm : List.Perm (directFiles e1) (directFiles e2) := directFiles_perm e1 e2 hp
  have hsort : sortFiles (directFiles e1) = sortFiles (directFiles e2) :=
    sortFiles_eq _ _ hperm hn
  refine ⟨?_, ?_, ?_⟩
  · unfold process_files
    rw [hsort]
  · have hfiles : (process_files e1 inP outP).files =
        (sortFiles (directFiles e1)).map mkRecord := processLoop_records _
    rw [hfiles, List.map_map]
    have hs := sortFiles_sorted (directFiles e1)
    rw [List.pairwise_map]
    exact hs
  · exact enumFrom_map_zipWith
      (fun i f => progressLine (sortFiles (directFiles e1)).length i f.name)
      (sortFiles (directFiles e1)) 1

/-- Witness for C5 at a concrete two-file directory listed in both orders. -/
theorem C5_wit :
    process_files c5e1 ("in") ("out") = process_files c5e2 ("in") ("out") ∧
    List.Pairwise (fun a b : String => bytesLe a.data b.data = true)
      ((process_files c5e1 ("in") ("out")).files.map (fun r => r.name)) ∧
    processProgress c5e1 = List.zipWith
      (fun i f => progressLine (sortFiles (directFiles c5e1)).length i f.name)
      (List.range' 1 (sortFiles (directFiles c5e1)).length)
      (sortFiles (directFiles c5e1)) :=
  C5_thm c5e1 c5e2 ("in") ("out") (by decide) (by decide)

/-- Claim C6: a readable input directory with zero direct-child regular
files (whatever its subdirectories hold) makes the run return exit code 1
with no summary written and no FileRecord created, via a ValidationError
whose message reports that 0 files were found. -/
theorem C6_thm : ∀ (inP outP : String) (entries : List DirEntry) (wf : Bool),
    directFiles entries = [] →
    (run ⟨inP, outP, FSNode.dir true entries, false, wf⟩).exitCode = 1 ∧
    (run ⟨inP, outP, FSNode.dir true entries, false, wf⟩).written = none ∧
    (run ⟨inP, outP, FSNode.dir true entries, false, wf⟩).recordsCreated = [] ∧
    ∃ m, validate_inputs inP (FSNode.dir true entries) = Except.error m ∧
      SubStr ("Found: 0 file(s)") m := by
  intro inP outP entries wf hf
  have hval : validate_inputs inP (FSNode.dir true entries) =
      Except.error (check4Message inP entries) := by
    simp [validate_inputs, hf, MIN_FILES_REQUIRED]
  refine ⟨?_, ?_, ?_, check4Message inP entries, hval, ?_⟩
  · simp [run, hval]
  · simp [run, hval]
  · simp [run, hval]
  · exact check4_contains_found0 inP entries hf

/-- Witness for C6 at a concrete directory holding only one subdirectory. -/
theorem C6_wit :
    (run ⟨"input", "output", FSNode.dir true [DirEntry.subdir ("d1") [nestedFile]], false, false⟩).exitCode = 1 ∧
    (run ⟨"input", "output", FSNode.dir true [DirEntry.subdir ("d1") [nestedFile]], false, false⟩).written = none ∧
    (run ⟨"input", "output", FSNode.dir true [DirEntry.subdir ("d1") [nestedFile]], false, false⟩).recordsCreated = [] ∧
    ∃ m, validate_inputs ("input") (FSNode.dir true [DirEntry.subdir ("d1") [nestedFile]]) = Except.error m ∧
      SubStr ("Found: 0 file(s)") m :=
  C6_thm ("input") ("output") [DirEntry.subdir ("d1") [nestedFile]] false (by decide)

/-- Claim C7: two input directories with the same direct children (at
least one direct-child file and at least one subdirectory) that differ
only in the files nested inside subdirectories get the same validation
outcome and the same Summary (hence the same Totals). -/
theorem C7_thm : ∀ (path inP outP : String) (r : Bool) (e1 e2 : List DirEntry),
    sameDirect e1 e2 = true →
    1 ≤ (directFiles e1).length →
    subdirNames e1 ≠ [] →
    validate_inputs path (FSNode.dir r e1) = validate_inputs path (FSNode.dir r e2) ∧
    process_files e1 inP outP = process_files e2 inP outP := by
  intro path inP outP r e1 e2 hs hone hsub
  obtain ⟨hf, hd, he⟩ := sameDirect_spec e1 e2 hs
  refine ⟨validate_congr path r e1 e2 hf hd he, ?_⟩
  unfold process_files
  rw [hf]

/-- Witness for C7: adding a file inside the subdirectory changes nothing. -/
theorem C7_wit :
    validate_inputs ("input") (FSNode.dir true c7e1) = validate_inputs ("input") (FSNode.dir true c7e2) ∧
    process_files c7e1 ("input") ("output") = process_files c7e2 ("input") ("output") :=
  C7_thm ("input") ("input") ("output") true c7e1 c7e2 (by decide) (by decide) (by decide)

/-- Claim C8: every run yields exactly one of three outcomes mapped to the
exit status: 0 iff setup, validation and writing all succeed; 1 iff setup
succeeds and validation fails; 2 iff setup fails, or validation passes and
writing the summary fails. -/
theorem C8_thm : ∀ w : World,
    ((run w).exitCode = 0 ↔
      (w.setupFails = false ∧ isOkB (validate_inputs w.inputPath w.input) = true ∧
       w.writeFails = false)) ∧
    ((run w).exitCode = 1 ↔
      (w.setupFails = false ∧ isOkB (validate_inputs w.inputPath w.input) = false)) ∧
    ((run w).exitCode = 2 ↔
      (w.setupFails = true ∨
       (isOkB (validate_inputs w.inputPath w.input) = true ∧ w.writeFails = true))) ∧
    ((run w).exitCode = 0 ∨ (run w).exitCode = 1 ∨ (run w).exitCode = 2) := by
  intro w
  obtain ⟨ip, op, input, sf, wf⟩ := w
  cases sf with
  | true => simp [run]
  | false =>
    cases hv : validate_inputs ip input with
    | error msg => simp [run, hv, isOkB]
    | ok u =>
      obtain ⟨r, e, rfl⟩ := validate_ok_dir ip input u hv
      cases wf with
      | true => simp [run, hv, isOkB]
      | false => simp [run, hv, isOkB]

set_option maxRecDepth 8000 in
/-- Claim C9 (counterexample): with six subdirectories and no files, the
check-4 failure message contains the suffix "... and 1 more", not the
claimed literal "+1 more" (exhibited: the message has no occurrence of
"+1 more" at all). -/
theorem C9_cex :
    ∃ m, validate_inputs ("input") (FSNode.dir true c9entries) = Except.error m ∧
      SubStr ("... and 1 more") m ∧
      ¬ SubStr ("+1 more") m := by
  refine ⟨check4Message ("input") c9entries, rfl, ?_, ?_⟩
  · decide
  · decide

/-- Claim C9 (amended): when check 4 fails, the message reports the count
of files found ("Found: 0 file(s)"); if subdirectories exist it contains
the line listing the first five subdirectory names (the shownFolders
list), states that files inside subfolders are NOT processed, and when
there are more than five subdirectories it carries an
"... and N more" suffix for the remaining count. -/
theorem C9_thm : ∀ (path : String) (entries : List DirEntry),
    directFiles entries = [] →
    ∃ m, validate_inputs path (FSNode.dir true entries) = Except.error m ∧
      SubStr ("Found: 0 file(s)") m ∧
      (subdirNames entries ≠ [] →
        SubStr ("Files inside subfolders are NOT processed.") m ∧
        SubStr ("Found " ++ toString (subdirNames entries).length ++ " subfolder(s): " ++
          pyJoin (", ") (shownFolders (subdirNames entries))) m) ∧
      (5 < (subdirNames entries).length →
        SubStr ("... and " ++ toString ((subdirNames entries).length - 5) ++ " more") m) := by
  intro path entries hf
  have hval : validate_inputs path (FSNode.dir true entries) =
      Except.error (check4Message path entries) := by
    simp [validate_inputs, hf, MIN_FILES_REQUIRED]
  refine ⟨check4Message path entries, hval, check4_contains_found0 path entries hf, ?_, ?_⟩
  · intro hd
    have hcond : (subdirNames entries).isEmpty = false := by
      cases hnames : subdirNames entries with
      | nil => exact absurd hnames hd
      | cons a l => simp
    rw [check4Message_folders path entries hcond]
    constructor
    · exact substr_mem_pyJoin _ _ _
        (List.mem_cons_of_mem _ (List.mem_cons_of_mem _ (List.mem_cons_of_mem _
          (List.mem_cons_of_mem _ (List.mem_cons_self _ _)))))
    · exact substr_mem_pyJoin _ _ _
        (List.mem_cons_of_mem _ (List.mem_cons_of_mem _ (List.mem_cons_self _ _)))
  · intro h5
    have hd : subdirNames entries ≠ [] := by
      intro hnil
      rw [hnil] at h5
      simp at h5
    have hcond : (subdirNames entries).isEmpty = false := by
      cases hnames : subdirNames entries with
      | nil => exact absurd hnames hd
      | cons a l => simp
    rw [check4Message_folders path entries hcond]
    have hmem : ("... and " ++ toString ((subdirNames entries).length - 5) ++ " more") ∈
        shownFolders (subdirNames entries) := by
      unfold shownFolders
      rw [if_pos h5]
      exact List.mem_append_right _ (List.mem_cons_self _ _)
    have hsub1 := substr_mem_pyJoin (", ") _ _ hmem
    have hsub2 : SubStr ("... and " ++ toString ((subdirNames entries).length - 5) ++ " more")
        ("Found " ++ toString (subdirNames entries).length ++ " subfolder(s): " ++
          pyJoin (", ") (shownFolders (subdirNames entries))) :=
      substr_append_left _ _ _ hsub1
    refine substr_trans _ _ _ hsub2 (substr_mem_pyJoin _ _ _ ?_)
    exact List.mem_cons_of_mem _ (List.mem_cons_of_mem _ (List.mem_cons_self _ _))

/-- Witness for the amended C9 at the six-subdirectory directory. -/
theorem C9_wit :
    ∃ m, validate_inputs ("input") (FSNode.dir true c9entries) = Except.error m ∧
      SubStr ("Found: 0 file(s)") m ∧
      (subdirNames c9entries ≠ [] →
        SubStr ("Files inside subfolders are NOT processed.") m ∧
        SubStr ("Found " ++ toString (subdirNames c9entries).length ++ " subfolder(s): " ++
          pyJoin (", ") (shownFolders (subdirNames c9entries))) m) ∧
      (5 < (subdirNames c9entries).length →
        SubStr ("... and " ++ toString ((subdirNames c9entries).length - 5) ++ " more") m) :=
  C9_thm ("input") c9entries (by decide)
